import Mathlib

/-!
Verification of the Lead Discovery, Scoring & Enrichment core of the
express-starter-postgres repository, shallowly embedded in Lean 4.

Persistent entities follow the Sequelize model definitions under
`src/api/models/`; the pipeline components (Keyword Matcher, Dedup Gate,
Priority Scorer, Quota Enforcer, AI Enrichment) exist in this repository
only as their data-model declarations plus the spec's contracts, so their
operational behaviour is modelled from the spec where noted.
-/

namespace LeadPipeline

/-- Content type enum from `lead.model.js` (`type: ENUM('post','comment')`). -/
inductive ContentType
  | post
  | comment
deriving DecidableEq, Repr

/-- Lead lifecycle status enum from `lead.model.js`
(`status: ENUM('new','read','responded','deleted')`, default `'new'`). -/
inductive LeadStatus
  | new
  | read
  | responded
  | deleted
deriving DecidableEq, Repr

/-- A row of the `leads` table, from `lead.model.js`. Only the columns the
verified properties touch are carried; `userId` and `postId` form the unique
index declared at lines 97–100 of the model. -/
structure Lead where
  id : Nat
  userId : String
  subredditId : Nat
  postId : String
  type : ContentType
  content : String
  status : LeadStatus
  priorityScore : Int
  aiResponse : Option String
  isAdminGenerated : Bool
deriving DecidableEq, Repr

/-- The `leads` table: a list of rows, in insertion order. -/
abbrev LeadTable := List Lead

/-- Row predicate for the unique index `['userId','postId']` of
`lead.model.js`. -/
def keyMatches (u p : String) (l : Lead) : Bool :=
  l.userId == u && l.postId == p

/-- Whether the table already holds a row for the pair `(u, p)` —
the condition the unique index makes the storage engine enforce. -/
def leadKeyTaken (db : LeadTable) (u p : String) : Bool :=
  db.any (keyMatches u p)

/-- Number of rows for the pair `(u, p)`. -/
def countPair (db : LeadTable) (u p : String) : Nat :=
  (db.filter (keyMatches u p)).length

/-- Outcome of a raw storage insert against the unique-indexed `leads`
table: either the row goes in, or the engine raises a uniqueness
violation on the `['userId','postId']` index. -/
inductive InsertResult
  | inserted (db : LeadTable)
  | uniqueViolation
deriving Repr

/-- Storage-collaborator insert into `leads`: the unique index of
`lead.model.js` (lines 97–100) rejects a second row for the same
`(userId, postId)` pair. -/
def storageInsertLead (db : LeadTable) (l : Lead) : InsertResult :=
  if leadKeyTaken db l.userId l.postId then .uniqueViolation
  else .inserted (db ++ [l])

/-- Outcome the Dedup Gate reports to its caller. -/
inductive GateOutcome
  | createdNew
  | noopExisting
  | failure
deriving DecidableEq, Repr

/-- Modelled from the spec: the Dedup & Persistence Gate (§4.3), whose
service code is not in the repository — only the unique index it relies on
is declared in `lead.model.js`. It attempts the constrained insert and
absorbs a uniqueness violation as a no-op success, never as an error. -/
def dedupGateCreate (db : LeadTable) (l : Lead) : LeadTable × GateOutcome :=
  match storageInsertLead db l with
  | .inserted db2 => (db2, .createdNew)
  | .uniqueViolation => (db, .noopExisting)

/-- Table after a sequence of Dedup Gate submissions. -/
def submitAll (db : LeadTable) (ls : List Lead) : LeadTable :=
  ls.foldl (fun d l => (dedupGateCreate d l).1) db

/- Helper lemmas relating the boolean key check to row counts. -/

theorem leadKeyTaken_iff_count_pos (db : LeadTable) (u p : String) :
    leadKeyTaken db u p = true ↔ 0 < countPair db u p := by
  induction db with
  | nil => simp [leadKeyTaken, countPair]
  | cons hd t ih =>
    by_cases h : keyMatches u p hd
    · simp [leadKeyTaken, countPair, List.filter_cons, h]
    · simp only [leadKeyTaken, List.any_cons, countPair, List.filter_cons] at ih ⊢
      simp [h, ih]

theorem countPair_append (db db2 : LeadTable) (u p : String) :
    countPair (db ++ db2) u p = countPair db u p + countPair db2 u p := by
  unfold countPair
  rw [List.filter_append, List.length_append]

theorem countPair_singleton_self (l : Lead) :
    countPair [l] l.userId l.postId = 1 := by
  unfold countPair keyMatches
  simp

/-- One gate submission for the pair `(u, p)` leaves its count at `1` once
it is `1`, and raises it from `0` to `1`. -/
theorem countPair_dedupGateCreate (db : LeadTable) (l : Lead) :
    countPair (dedupGateCreate db l).1 l.userId l.postId =
      max (countPair db l.userId l.postId) 1 := by
  by_cases h : leadKeyTaken db l.userId l.postId = true
  · have hpos := (leadKeyTaken_iff_count_pos db l.userId l.postId).mp h
    simp only [dedupGateCreate, storageInsertLead, h]
    simp only [if_true]
    omega
  · have hz : countPair db l.userId l.postId = 0 := by
      rcases Nat.eq_zero_or_pos (countPair db l.userId l.postId) with h0 | hp
      · exact h0
      · exact absurd ((leadKeyTaken_iff_count_pos db l.userId l.postId).mpr hp) h
    simp [dedupGateCreate, storageInsertLead, h, countPair_append,
      countPair_singleton_self, hz]

/-- A gate submission never touches rows of another pair. -/
theorem countPair_dedupGateCreate_other (db : LeadTable) (l : Lead)
    (u p : String) (h : keyMatches u p l = false) :
    countPair (dedupGateCreate db l).1 u p = countPair db u p := by
  by_cases hk : leadKeyTaken db l.userId l.postId = true
  · simp [dedupGateCreate, storageInsertLead, hk]
  · have hone : countPair [l] u p = 0 := by
      unfold countPair
      simp [h]
    simp [dedupGateCreate, storageInsertLead, hk, countPair_append, hone]

/-- Folding the gate over a run of submissions that all target the pair
`(u, p)` drives that pair's row count to `max (previous count) 1`. -/
theorem countPair_submitAll (db : LeadTable) (u p : String) (ls : List Lead)
    (hall : ∀ l ∈ ls, l.userId = u ∧ l.postId = p) (hne : ls ≠ []) :
    countPair (submitAll db ls) u p = max (countPair db u p) 1 := by
  induction ls generalizing db with
  | nil => exact absurd rfl hne
  | cons l t ih =>
    obtain ⟨hu, hp⟩ := hall l (List.mem_cons_self l t)
    have hstep : countPair (dedupGateCreate db l).1 u p
        = max (countPair db u p) 1 := by
      subst hu
      subst hp
      exact countPair_dedupGateCreate db l
    have hrec : submitAll db (l :: t) = submitAll (dedupGateCreate db l).1 t := rfl
    by_cases ht : t = []
    · subst ht
      rw [hrec]
      simpa [submitAll] using hstep
    · have htail := ih (dedupGateCreate db l).1
        (fun x hx => hall x (List.mem_cons_of_mem _ hx)) ht
      rw [hrec, htail, hstep]
      omega

/-- C1: for every user and source post id, after any number of gate
submissions of the same `(userId, postId)` pair — repeated or interleaved
in any order, which covers concurrent polls serialized by the storage
engine's unique index — exactly one Lead row exists for that pair. -/
theorem lead_pair_unique_after_submissions
    (db : LeadTable) (u p : String) (ls : List Lead)
    (h0 : countPair db u p = 0) (hne : ls ≠ [])
    (hall : ∀ l ∈ ls, l.userId = u ∧ l.postId = p) :
    countPair (submitAll db ls) u p = 1 := by
  rw [countPair_submitAll db u p ls hall hne, h0]
  omega

/-- A duplicate-heavy concrete run: three submissions of post `abc123`
for user `u1` leave exactly one row for the pair. -/
def wLeadA : Lead :=
  { id := 1, userId := "u1", subredditId := 7, postId := "abc123"
    type := .post, content := "first sighting", status := .new
    priorityScore := 50, aiResponse := none, isAdminGenerated := false }

def wLeadB : Lead :=
  { id := 2, userId := "u1", subredditId := 7, postId := "abc123"
    type := .post, content := "second sighting", status := .new
    priorityScore := 50, aiResponse := none, isAdminGenerated := false }

theorem lead_pair_unique_witness :
    countPair (submitAll [] [wLeadA, wLeadB, wLeadA]) "u1" "abc123" = 1 :=
  lead_pair_unique_after_submissions [] "u1" "abc123" [wLeadA, wLeadB, wLeadA]
    (by decide) (by decide) (by decide)

/-- C4: an attempt to create a Lead for a pair that already has one is
absorbed by the Dedup Gate as a no-op success — the table (hence the
existing Lead) is unchanged and the reported outcome is `noopExisting`;
moreover no gate call whatsoever, concurrent resubmissions included,
ever reports `failure`. -/
theorem dedupGate_conflict_is_noop_success (db : LeadTable) (l : Lead)
    (h : leadKeyTaken db l.userId l.postId = true) :
    dedupGateCreate db l = (db, GateOutcome.noopExisting) ∧
      ∀ db2 l2, (dedupGateCreate db2 l2).2 ≠ GateOutcome.failure := by
  constructor
  · simp [dedupGateCreate, storageInsertLead, h]
  · intro db2 l2
    unfold dedupGateCreate storageInsertLead
    by_cases h2 : leadKeyTaken db2 l2.userId l2.postId = true
    · simp [h2]
    · simp [h2]

theorem dedupGate_conflict_witness :
    dedupGateCreate [wLeadA] wLeadB = ([wLeadA], GateOutcome.noopExisting) :=
  (dedupGate_conflict_is_noop_success [wLeadA] wLeadB (by decide)).1

/-- AI operation kinds from `aiUsage.model.js`
(`operation: ENUM('extract_business_info','suggest_subreddits',
'validate_lead','generate_response')`). -/
inductive AIOperation
  | extract_business_info
  | suggest_subreddits
  | validate_lead
  | generate_response
deriving DecidableEq, Repr

/-- A row of `ai_usage` from `aiUsage.model.js`. Token counts are INTEGER
columns; `cost` is DECIMAL(10,6), carried here in micro-units. -/
structure AIUsage where
  userId : Option String
  operation : AIOperation
  model : String
  promptTokens : Int
  completionTokens : Int
  totalTokens : Int
  cost : Int
deriving DecidableEq, Repr

/-- Modelled from the spec: the AI service collaborator (§6) — an
invocation attempt either succeeds with token counts and a cost, or fails;
a failed call may still have consumed prompt tokens (§4.6). -/
inductive AIOutcome
  | success (promptTokens completionTokens : Nat) (cost : Int) (result : String)
  | failure (promptTokens : Nat)
deriving DecidableEq, Repr

/-- The usage row written for one invocation attempt. -/
def usageOfOutcome (uid : Option String) (op : AIOperation) (mdl : String)
    (o : AIOutcome) : AIUsage :=
  match o with
  | .success pt ct c _ =>
      { userId := uid, operation := op, model := mdl
        promptTokens := pt, completionTokens := ct
        totalTokens := pt + ct, cost := c }
  | .failure pt =>
      { userId := uid, operation := op, model := mdl
        promptTokens := pt, completionTokens := 0
        totalTokens := pt, cost := 0 }

/-- Modelled from the spec: every AI invocation attempt, successful or
failed, appends exactly one AI Usage Record (§4.6, §8); the AI worker code
is not in the repository, only the `ai_usage` model is. -/
def recordInvocation (records : List AIUsage) (uid : Option String)
    (op : AIOperation) (mdl : String) (o : AIOutcome) : List AIUsage :=
  records ++ [usageOfOutcome uid op mdl o]

/-- Subscription plan limits from `src/config/config.js`
(`SUBSCRIPTION_PLANS`). `durationDays` is only set on the free trial. -/
structure PlanLimits where
  id : Nat
  name : String
  maxSubreddits : Nat
  maxLeadsPerDay : Nat
  durationDays : Option Nat
deriving DecidableEq, Repr

/-- `SUBSCRIPTION_PLANS.FREE_TRIAL` from `src/config/config.js`. -/
def FREE_TRIAL : PlanLimits :=
  { id := 1, name := "Free Trial", maxSubreddits := 3
    maxLeadsPerDay := 5, durationDays := some 3 }

/-- `SUBSCRIPTION_PLANS.LOWER_TIER` from `src/config/config.js`. -/
def LOWER_TIER : PlanLimits :=
  { id := 2, name := "Basic Plan", maxSubreddits := 3
    maxLeadsPerDay := 10, durationDays := none }

/-- `SUBSCRIPTION_PLANS.MEDIUM_TIER` from `src/config/config.js`. -/
def MEDIUM_TIER : PlanLimits :=
  { id := 3, name := "Premium Plan", maxSubreddits := 6
    maxLeadsPerDay := 25, durationDays := none }

/-- Per-user pipeline state for one UTC day: the leads table, the user's
Daily Lead Counter — keyed by (userId, UTC date) per §3, this state being
the current day's cell, so it resets implicitly at the day boundary —
and AI-call accounting. -/
structure PipelineState where
  leads : LeadTable
  dailyCount : Nat
  aiCalls : Nat
  aiUsage : List AIUsage
deriving DecidableEq, Repr

/-- Result the pipeline reports for one matching candidate. -/
inductive CandidateOutcome
  | accepted
  | quotaExceeded
deriving DecidableEq, Repr

/-- Modelled from the spec: the Quota Enforcer (§4.5) wired into the accept
path (§2 data flow) — neither is in the repository, only
`SUBSCRIPTION_PLANS` and `User.dailyLeadLimit` are. If the user's daily
counter has reached the plan's `maxLeadsPerDay`, the candidate is discarded
with `QuotaExceeded`: no Lead row, no counter increment, no AI call, no AI
usage record. Otherwise the counter is incremented atomically with the
accept, the Lead persisted through the Dedup Gate, and enrichment invoked
(one AI call, recorded as one usage record). -/
def processCandidate (limit : Nat) (st : PipelineState) (cand : Lead)
    (enrich : AIOutcome) : PipelineState × CandidateOutcome :=
  if limit ≤ st.dailyCount then (st, .quotaExceeded)
  else
    ({ leads := (dedupGateCreate st.leads cand).1
       dailyCount := st.dailyCount + 1
       aiCalls := st.aiCalls + 1
       aiUsage := recordInvocation st.aiUsage (some cand.userId)
         .validate_lead "gpt-4-turbo" enrich },
     .accepted)

/-- C2: a Free Trial user (`maxLeadsPerDay = 5` in `config.js`) whose daily
counter has reached 5 has every further matching candidate that day
rejected with `QuotaExceeded`: the state is returned unchanged — no Lead
row created, no counter increment, no AI call, no AI usage record. -/
theorem free_trial_sixth_candidate_rejected (st : PipelineState) (cand : Lead)
    (enrich : AIOutcome) (h : FREE_TRIAL.maxLeadsPerDay ≤ st.dailyCount) :
    (processCandidate FREE_TRIAL.maxLeadsPerDay st cand enrich).2 =
        CandidateOutcome.quotaExceeded ∧
      (processCandidate FREE_TRIAL.maxLeadsPerDay st cand enrich).1.leads
        = st.leads ∧
      (processCandidate FREE_TRIAL.maxLeadsPerDay st cand enrich).1.dailyCount
        = st.dailyCount ∧
      (processCandidate FREE_TRIAL.maxLeadsPerDay st cand enrich).1.aiCalls
        = st.aiCalls ∧
      (processCandidate FREE_TRIAL.maxLeadsPerDay st cand enrich).1.aiUsage
        = st.aiUsage := by
  simp [processCandidate, h]

theorem free_trial_sixth_candidate_witness :
    (processCandidate FREE_TRIAL.maxLeadsPerDay
        { leads := [wLeadA], dailyCount := 5, aiCalls := 5, aiUsage := [] }
        wLeadB (AIOutcome.failure 0)).2 = CandidateOutcome.quotaExceeded :=
  (free_trial_sixth_candidate_rejected
    { leads := [wLeadA], dailyCount := 5, aiCalls := 5, aiUsage := [] }
    wLeadB (AIOutcome.failure 0) (by decide)).1

/-- C6: every AI invocation attempt, successful or failed, creates exactly
one AI Usage Record; records created earlier are left untouched (immutable
after creation); and the new record's prompt, completion and total token
counts are non-negative. -/
theorem ai_usage_record_exactly_once (records : List AIUsage)
    (uid : Option String) (op : AIOperation) (mdl : String) (o : AIOutcome) :
    (recordInvocation records uid op mdl o).length = records.length + 1 ∧
      (recordInvocation records uid op mdl o).take records.length = records ∧
      0 ≤ (usageOfOutcome uid op mdl o).promptTokens ∧
      0 ≤ (usageOfOutcome uid op mdl o).completionTokens ∧
      0 ≤ (usageOfOutcome uid op mdl o).totalTokens := by
  refine ⟨?_, ?_, ?_, ?_, ?_⟩
  · simp [recordInvocation]
  · simp [recordInvocation, List.take_append]
  · cases o <;> simp [usageOfOutcome]
  · cases o <;> simp [usageOfOutcome]
  · cases o <;> simp [usageOfOutcome]
    omega

/-- Clamp an integer into `[lo, hi]` (clamp, do not wrap — §4.4). -/
def clampScore (lo hi x : Int) : Int := max lo (min hi x)

/-- Inputs of the Priority Scorer, per §4.4: match strength, post recency,
subreddit subscriber count, content type, admin-origin flag. -/
structure ScoreInput where
  matchStrength : Nat
  postAgeHours : Nat
  subscriberCount : Nat
  contentType : ContentType
  isAdminGenerated : Bool
deriving DecidableEq, Repr

/-- Modelled from the spec: the Priority Scorer (§4.4) — absent from the
repository, which only declares `Lead.priorityScore` with default 50. A
deterministic pure function: base score 50 with bounded adjustments for
match strength, recency, subreddit size, content type and admin origin,
the sum clamped into [0, 100]. -/
def priorityScorer (i : ScoreInput) : Int :=
  let base : Int := 50
  let matchAdj : Int := min 20 (5 * (i.matchStrength : Int))
  let recencyAdj : Int :=
    if i.postAgeHours < 24 then 10
    else if i.postAgeHours < 72 then 0
    else -10
  let sizeAdj : Int :=
    if 100000 < i.subscriberCount then 10
    else if 10000 < i.subscriberCount then 5
    else 0
  let typeAdj : Int :=
    match i.contentType with
    | .post => 5
    | .comment => 0
  let adminAdj : Int := if i.isAdminGenerated then 10 else 0
  clampScore 0 100 (base + matchAdj + recencyAdj + sizeAdj + typeAdj + adminAdj)

theorem clampScore_mem (x : Int) :
    0 ≤ clampScore 0 100 x ∧ clampScore 0 100 x ≤ 100 := by
  unfold clampScore
  omega

/-- C3: for every input, the Priority Scorer returns an integer in the
closed interval [0, 100], and it is deterministic — identical inputs yield
identical scores. -/
theorem priorityScorer_bounded_deterministic (i : ScoreInput) :
    0 ≤ priorityScorer i ∧ priorityScorer i ≤ 100 ∧
      ∀ j : ScoreInput, j = i → priorityScorer j = priorityScorer i := by
  refine ⟨?_, ?_, ?_⟩
  · exact (clampScore_mem _).1
  · exact (clampScore_mem _).2
  · intro j hj
    rw [hj]

/-- Concrete scorer input for the C3 witness. -/
def wScoreInput : ScoreInput :=
  { matchStrength := 3, postAgeHours := 5, subscriberCount := 20000
    contentType := .post, isAdminGenerated := false }

theorem priorityScorer_witness :
    0 ≤ priorityScorer wScoreInput ∧ priorityScorer wScoreInput ≤ 100 ∧
      priorityScorer wScoreInput = priorityScorer wScoreInput :=
  ⟨(priorityScorer_bounded_deterministic wScoreInput).1,
   (priorityScorer_bounded_deterministic wScoreInput).2.1,
   (priorityScorer_bounded_deterministic wScoreInput).2.2 wScoreInput rfl⟩

/-- Watch activity status enum from `userSubreddit.model.js`
(`status: ENUM('active','paused')`, default `'active'`). -/
inductive WatchStatus
  | active
  | paused
deriving DecidableEq, Repr

/-- A row of `user_subreddits` from `userSubreddit.model.js` — the Watch of
the spec. `userId` and `subredditId` form the unique index declared at
lines 50–55 of the model. -/
structure UserSubreddit where
  id : Nat
  userId : String
  subredditId : Nat
  keywords : List String
  excludeKeywords : List String
  postTypes : List ContentType
  status : WatchStatus
deriving DecidableEq, Repr

/-- A new Watch row with the column defaults of `userSubreddit.model.js`:
`keywords: []`, `excludeKeywords: []`, `postTypes: ['post','comment']`,
`status: 'active'`. -/
def newWatch (i : Nat) (u : String) (s : Nat) : UserSubreddit :=
  { id := i, userId := u, subredditId := s
    keywords := [], excludeKeywords := []
    postTypes := [.post, .comment], status := .active }

/-- Substring test over character lists: does `needle` occur contiguously
inside `hay`? -/
def containsSub (hay needle : List Char) : Bool :=
  match hay with
  | [] => needle.isEmpty
  | _ :: t => needle.isPrefixOf hay || containsSub t needle

/-- Lower-cased character sequence of a string. -/
def lowerChars (s : String) : List Char := s.data.map Char.toLower

/-- Modelled from the spec: the Keyword Matcher's keyword test (§4.2),
fixed per the spec's stated option as a case-insensitive substring match. -/
def keywordHit (text kw : String) : Bool :=
  containsSub (lowerChars text) (lowerChars kw)

/-- A content item as handed to the Matcher: content type and raw text
(§6 content source interface). -/
structure ContentItem where
  ctype : ContentType
  text : String
deriving DecidableEq, Repr

/-- Modelled from the spec: the Keyword Matcher (§4.2) — absent from the
repository, which only stores the keyword sets on `user_subreddits`.
Accept iff the content type is accepted, some include keyword hits (or the
include set is empty), and no exclude keyword hits. -/
def keywordMatch (w : UserSubreddit) (it : ContentItem) : Bool :=
  w.postTypes.contains it.ctype
    && (w.keywords.isEmpty || w.keywords.any (fun k => keywordHit it.text k))
    && !(w.excludeKeywords.any (fun k => keywordHit it.text k))

/-- C5: the Matcher accepts iff (a) the item's content type is among the
Watch's accepted types, (b) some include keyword hits case-insensitively or
the include set is empty, and (c) no exclude keyword hits; in particular an
exclude hit rejects the item regardless of include hits, and an empty
include set accepts every item of an accepted type with no exclude hit. -/
theorem keywordMatch_accepts_iff (w : UserSubreddit) (it : ContentItem) :
    (keywordMatch w it = true ↔
        (it.ctype ∈ w.postTypes ∧
          (w.keywords = [] ∨ ∃ k ∈ w.keywords, keywordHit it.text k = true) ∧
          ∀ k ∈ w.excludeKeywords, keywordHit it.text k = false)) ∧
      ((∃ k ∈ w.excludeKeywords, keywordHit it.text k = true) →
        keywordMatch w it = false) ∧
      (w.keywords = [] → it.ctype ∈ w.postTypes →
        (∀ k ∈ w.excludeKeywords, keywordHit it.text k = false) →
        keywordMatch w it = true) := by
  have hiff : keywordMatch w it = true ↔
      (it.ctype ∈ w.postTypes ∧
        (w.keywords = [] ∨ ∃ k ∈ w.keywords, keywordHit it.text k = true) ∧
        ∀ k ∈ w.excludeKeywords, keywordHit it.text k = false) := by
    simp [keywordMatch, List.isEmpty_iff, List.any_eq_true, Bool.not_eq_true,
      and_assoc]
  refine ⟨hiff, ?_, ?_⟩
  · rintro ⟨k, hk, hhit⟩
    rcases hb : keywordMatch w it with _ | _
    · rfl
    · have := (hiff.mp hb).2.2 k hk
      rw [this] at hhit
      exact absurd hhit (by simp)
  · intro hempty htype hexcl
    exact hiff.mpr ⟨htype, Or.inl hempty, hexcl⟩

/-- The Watch of the spec's §8 scenario: include `["b2b","saas"]`,
exclude `["hiring"]`. -/
def wWatch : UserSubreddit :=
  { id := 1, userId := "u1", subredditId := 7
    keywords := ["b2b", "saas"], excludeKeywords := ["hiring"]
    postTypes := [.post, .comment], status := .active }

theorem keywordMatch_witness :
    keywordMatch wWatch { ctype := .post, text := "We are hiring SaaS devs" }
      = false :=
  (keywordMatch_accepts_iff wWatch
      { ctype := .post, text := "We are hiring SaaS devs" }).2.1
    ⟨"hiring", by decide, by decide⟩

/-- A fresh Lead row as the Dedup Gate inserts it, with the column defaults
of `lead.model.js`: `status: 'new'`, `priorityScore: 50`, empty AI fields,
`isAdminGenerated: false`. -/
def freshLead (i : Nat) (u : String) (sr : Nat) (p : String)
    (ty : ContentType) (c : String) : Lead :=
  { id := i, userId := u, subredditId := sr, postId := p, type := ty
    content := c, status := .new, priorityScore := 50
    aiResponse := none, isAdminGenerated := false }

/-- Modelled from the spec: the only mutations applied to existing Lead
rows (§3) — status transitions (deletion being the transition to
`deleted`, never a row removal) and AI enrichment filling the AI fields
(§4.6). -/
inductive LeadOp
  | setStatus (id : Nat) (s : LeadStatus)
  | enrich (id : Nat) (resp : String)
deriving DecidableEq, Repr

/-- Apply one Lead mutation to the table, in place by row id. -/
def applyLeadOp (db : LeadTable) (op : LeadOp) : LeadTable :=
  match op with
  | .setStatus i s =>
      db.map (fun l => if l.id = i then { l with status := s } else l)
  | .enrich i r =>
      db.map (fun l => if l.id = i then { l with aiResponse := some r } else l)

theorem applyLeadOp_ids (db : LeadTable) (op : LeadOp) :
    (applyLeadOp db op).map (fun l => l.id) = db.map (fun l => l.id) := by
  cases op with
  | setStatus i s =>
    simp only [applyLeadOp, List.map_map]
    apply List.map_congr_left
    intro l _
    by_cases h : l.id = i <;> simp [h]
  | enrich i r =>
    simp only [applyLeadOp, List.map_map]
    apply List.map_congr_left
    intro l _
    by_cases h : l.id = i <;> simp [h]

/-- C7: under any sequence of Lead mutations the table keeps exactly the
same rows (by id) — no operation physically removes a Lead, deletion being
only the status transition to `deleted`; a freshly inserted Lead starts in
status `new`; and every row's status stays within the closed set
{new, read, responded, deleted}. -/
theorem lead_lifecycle_closed (db : LeadTable) (ops : List LeadOp)
    (i : Nat) (u : String) (sr : Nat) (p : String) (ty : ContentType)
    (c : String) :
    (ops.foldl applyLeadOp db).map (fun l => l.id) = db.map (fun l => l.id) ∧
      (freshLead i u sr p ty c).status = LeadStatus.new ∧
      ∀ l ∈ ops.foldl applyLeadOp db,
        l.status = LeadStatus.new ∨ l.status = LeadStatus.read ∨
          l.status = LeadStatus.responded ∨ l.status = LeadStatus.deleted := by
  refine ⟨?_, rfl, ?_⟩
  · induction ops generalizing db with
    | nil => rfl
    | cons op t ih =>
      calc (List.foldl applyLeadOp db (op :: t)).map (fun l => l.id)
          = (List.foldl applyLeadOp (applyLeadOp db op) t).map (fun l => l.id) := rfl
        _ = (applyLeadOp db op).map (fun l => l.id) := ih (applyLeadOp db op)
        _ = db.map (fun l => l.id) := applyLeadOp_ids db op
  · intro l _
    cases hs : l.status
    · exact Or.inl rfl
    · exact Or.inr (Or.inl rfl)
    · exact Or.inr (Or.inr (Or.inl rfl))
    · exact Or.inr (Or.inr (Or.inr rfl))

theorem lead_lifecycle_witness :
    ([LeadOp.setStatus 1 LeadStatus.deleted].foldl applyLeadOp
        [wLeadA]).map (fun l => l.id) = [wLeadA].map (fun l => l.id) :=
  (lead_lifecycle_closed [wLeadA] [LeadOp.setStatus 1 LeadStatus.deleted]
    3 "u1" 7 "p9" ContentType.post "hello").1

/-- The watches table: `user_subreddits` rows in insertion order. -/
abbrev WatchTable := List UserSubreddit

/-- Row predicate for the unique index `['userId','subredditId']` of
`userSubreddit.model.js`. -/
def watchKeyMatches (u : String) (s : Nat) (w : UserSubreddit) : Bool :=
  w.userId == u && w.subredditId == s

/-- Whether the table already holds a Watch for the pair `(u, s)`. -/
def watchKeyTaken (db : WatchTable) (u : String) (s : Nat) : Bool :=
  db.any (watchKeyMatches u s)

/-- Number of Watch rows for the pair `(u, s)`. -/
def countWatchPair (db : WatchTable) (u : String) (s : Nat) : Nat :=
  (db.filter (watchKeyMatches u s)).length

/-- Storage-collaborator insert into `user_subreddits`, honouring the
unique index of `userSubreddit.model.js` (lines 50–55): a second row for
the same `(userId, subredditId)` pair is refused. -/
def storageInsertWatch (db : WatchTable) (w : UserSubreddit) : WatchTable :=
  if watchKeyTaken db w.userId w.subredditId then db else db ++ [w]

/-- Modelled from the spec: pausing a Watch deactivates it in place —
"deactivated (not deleted) on pause" (§3). -/
def pauseWatch (db : WatchTable) (i : Nat) : WatchTable :=
  db.map (fun w => if w.id = i then { w with status := .paused } else w)

theorem watchKeyTaken_iff_count_pos (db : WatchTable) (u : String) (s : Nat) :
    watchKeyTaken db u s = true ↔ 0 < countWatchPair db u s := by
  induction db with
  | nil => simp [watchKeyTaken, countWatchPair]
  | cons hd t ih =>
    by_cases h : watchKeyMatches u s hd
    · simp [watchKeyTaken, countWatchPair, List.filter_cons, h]
    · simp only [watchKeyTaken, List.any_cons, countWatchPair,
        List.filter_cons] at ih ⊢
      simp [h, ih]

theorem countWatchPair_insert_le (db : WatchTable) (w : UserSubreddit)
    (u : String) (s : Nat) (h : countWatchPair db u s ≤ 1) :
    countWatchPair (storageInsertWatch db w) u s ≤ 1 := by
  by_cases hk : watchKeyTaken db w.userId w.subredditId = true
  · simpa [storageInsertWatch, hk] using h
  · simp only [storageInsertWatch, hk, if_false, Bool.false_eq_true]
    have happ : countWatchPair (db ++ [w]) u s
        = countWatchPair db u s + countWatchPair [w] u s := by
      unfold countWatchPair
      rw [List.filter_append, List.length_append]
    by_cases hm : watchKeyMatches u s w = true
    · have hu : w.userId = u := by
        have := (Bool.and_eq_true _ _).mp hm
        exact eq_of_beq this.1
      have hs : w.subredditId = s := by
        have := (Bool.and_eq_true _ _).mp hm
        exact eq_of_beq this.2
      have hz : countWatchPair db u s = 0 := by
        rcases Nat.eq_zero_or_pos (countWatchPair db u s) with h0 | hp
        · exact h0
        · have := (watchKeyTaken_iff_count_pos db u s).mpr hp
          rw [hu, hs] at hk
          exact absurd this hk
      have hw1 : countWatchPair [w] u s = 1 := by
        unfold countWatchPair
        simp [hm]
      omega
    · have hw0 : countWatchPair [w] u s = 0 := by
        unfold countWatchPair
        simp [List.filter_cons, hm]
      omega

/-- C8: the unique index keeps at most one Watch per
`(userId, subredditId)` across any sequence of inserts; a new Watch starts
`active` (the model's column default); and pausing a Watch sets its status
to `paused` while keeping every row in place (same ids, nothing deleted). -/
theorem watch_unique_active_soft_pause (db : WatchTable)
    (ws : List UserSubreddit) (u : String) (s : Nat) (i : Nat)
    (h : countWatchPair db u s ≤ 1) :
    countWatchPair (ws.foldl storageInsertWatch db) u s ≤ 1 ∧
      (newWatch i u s).status = WatchStatus.active ∧
      (pauseWatch db i).map (fun w => w.id) = db.map (fun w => w.id) ∧
      ∀ w ∈ pauseWatch db i, w.id = i → w.status = WatchStatus.paused := by
  refine ⟨?_, rfl, ?_, ?_⟩
  · induction ws generalizing db with
    | nil => exact h
    | cons w t ih =>
      exact ih (storageInsertWatch db w) (countWatchPair_insert_le db w u s h)
  · simp only [pauseWatch, List.map_map]
    apply List.map_congr_left
    intro w _
    by_cases hw : w.id = i <;> simp [hw]
  · intro w hw hid
    obtain ⟨w0, hw0, heq⟩ := List.mem_map.mp hw
    by_cases h0 : w0.id = i
    · rw [← heq]
      simp [h0]
    · rw [← heq] at hid
      simp [h0] at hid

/-- A concrete run for C8: two inserts of the same pair then a pause. -/
def wWatchB : UserSubreddit :=
  { id := 2, userId := "u1", subredditId := 7
    keywords := ["b2b"], excludeKeywords := []
    postTypes := [.post], status := .active }

theorem watch_unique_witness :
    countWatchPair (List.foldl storageInsertWatch []
        [newWatch 1 "u1" 7, wWatchB]) "u1" 7 ≤ 1 :=
  (watch_unique_active_soft_pause [] [newWatch 1 "u1" 7, wWatchB]
    "u1" 7 1 (by decide)).1

/-- `planStatus` enum from the User model
(`ENUM('trial','active','canceled','expired')`, default `'trial'`). -/
inductive PlanStatus
  | trial
  | active
  | canceled
  | expired
deriving DecidableEq, Repr

/-- The fields of a `users` row that `requireActiveSubscription` reads and
writes; `trialEndDate` in epoch milliseconds, `none` for SQL NULL. -/
structure UserRec where
  planStatus : PlanStatus
  trialEndDate : Option Int
deriving DecidableEq, Repr

/-- Outcome of a middleware run: `next()` without argument, or
`next(new APIError(message, status))`. -/
inductive SubCheckResult
  | proceed
  | apiError (message : String) (status : Nat)
deriving DecidableEq, Repr

/-- The JS truthy-guarded expiry test of the middleware:
`user.trialEndDate && new Date(user.trialEndDate) < new Date()`. -/
def trialExpired (now : Int) (user : UserRec) : Bool :=
  match user.trialEndDate with
  | some t => decide (t < now)
  | none => false

/-- From `requireActiveSubscription` in the auth middleware (the file also
holding `userSubreddit.model.js` in this snapshot, lines 96–116): reject
with 403 unless `planStatus` is `'active'` or `'trial'`; for a trial user
whose `trialEndDate` is strictly past, set `planStatus` to `'expired'`,
save, and reject with 403. The returned `UserRec` is the row as persisted
afterward. -/
def requireActiveSubscription (now : Int) (user : UserRec) :
    UserRec × SubCheckResult :=
  if !(user.planStatus == .active) && !(user.planStatus == .trial) then
    (user, .apiError "Active subscription required for this action" 403)
  else if (user.planStatus == .trial) && trialExpired now user then
    ({ user with planStatus := .expired },
     .apiError "Your trial period has expired" 403)
  else
    (user, .proceed)

/-- C9: a trial user whose `trialEndDate` lies strictly in the past has
`planStatus` set to `expired` and persisted, and the request rejected with
403; a user whose `planStatus` is neither `active` nor `trial` is rejected
with 403 with no state change. -/
theorem requireActiveSubscription_expires_and_rejects (now : Int)
    (user : UserRec) :
    (∀ t : Int, user.planStatus = PlanStatus.trial →
        user.trialEndDate = some t → t < now →
        requireActiveSubscription now user =
          ({ user with planStatus := PlanStatus.expired },
           SubCheckResult.apiError "Your trial period has expired" 403)) ∧
      (user.planStatus ≠ PlanStatus.active →
        user.planStatus ≠ PlanStatus.trial →
        requireActiveSubscription now user =
          (user,
           SubCheckResult.apiError
             "Active subscription required for this action" 403)) := by
  constructor
  · intro t htrial hsome hlt
    have hexp : trialExpired now user = true := by
      simp [trialExpired, hsome, hlt]
    simp [requireActiveSubscription, htrial, hexp]
  · intro hna hnt
    simp [requireActiveSubscription, hna, hnt]

theorem requireActiveSubscription_witness :
    requireActiveSubscription 100
        { planStatus := PlanStatus.trial, trialEndDate := some 99 } =
      ({ planStatus := PlanStatus.expired, trialEndDate := some 99 },
       SubCheckResult.apiError "Your trial period has expired" 403) :=
  (requireActiveSubscription_expires_and_rejects 100
      { planStatus := PlanStatus.trial, trialEndDate := some 99 }).1
    99 rfl rfl (by decide)

/-- A `users` row as `deleteUser` sees it: primary key and Clerk id. -/
structure UserRow where
  id : String
  clerkId : String
deriving DecidableEq, Repr

/-- A `user_subscriptions` row: primary key and owning user. -/
structure UserSubscriptionRow where
  id : String
  userId : String
deriving DecidableEq, Repr

/-- The tables `deleteUser` touches. -/
structure AuthDB where
  users : List UserRow
  userSubscriptions : List UserSubscriptionRow
deriving DecidableEq, Repr

/-- From `deleteUser` in `src/api/services/authService.js` (lines 71–91):
find the user by `clerkId` and return `false` if absent; otherwise destroy
the user's `UserSubscription` rows and the user row inside one
transaction, committing and returning `true`; if the transaction body
fails it is rolled back and the error rethrown, leaving both tables
unchanged. `txFails` abstracts whether the transaction body fails. -/
def deleteUser (db : AuthDB) (clerkId : String) (txFails : Bool) :
    AuthDB × Except String Bool :=
  match db.users.find? (fun u => u.clerkId == clerkId) with
  | none => (db, .ok false)
  | some u =>
      if txFails then (db, .error "Delete user error")
      else
        ({ users := db.users.filter (fun v => !(v.id == u.id))
           userSubscriptions :=
             db.userSubscriptions.filter (fun s => !(s.userId == u.id)) },
         .ok true)

/-- C10: `deleteUser` is atomic — when it returns `ok false` no user with
that `clerkId` existed and nothing changed; when the transaction fails the
rollback leaves both tables unchanged; and when it returns `ok true` some
user with that `clerkId` existed, and exactly that user's row and their
subscription rows are gone while every other row survives. -/
theorem deleteUser_atomic (db : AuthDB) (cid : String) (txFails : Bool) :
    ((deleteUser db cid txFails).2 = Except.ok false →
        (deleteUser db cid txFails).1 = db ∧
          ∀ u ∈ db.users, u.clerkId ≠ cid) ∧
      (∀ e, (deleteUser db cid txFails).2 = Except.error e →
        (deleteUser db cid txFails).1 = db) ∧
      ((deleteUser db cid txFails).2 = Except.ok true →
        ∃ u ∈ db.users, u.clerkId = cid ∧
          (deleteUser db cid txFails).1.users
              = db.users.filter (fun v => !(v.id == u.id)) ∧
            (deleteUser db cid txFails).1.userSubscriptions
              = db.userSubscriptions.filter (fun s => !(s.userId == u.id))) := by
  match hf : db.users.find? (fun u => u.clerkId == cid) with
  | none =>
    refine ⟨?_, ?_, ?_⟩
    · intro _
      refine ⟨by simp [deleteUser, hf], ?_⟩
      intro u hu hc
      have := List.find?_eq_none.mp hf u hu
      simp [hc] at this
    · intro e he
      simp [deleteUser, hf] at he
    · intro ht
      simp [deleteUser, hf] at ht
  | some u =>
    have hmem : u ∈ db.users := List.mem_of_find?_eq_some hf
    have hcid : u.clerkId = cid := by
      have := List.find?_some hf
      exact eq_of_beq this
    cases txFails with
    | true =>
      refine ⟨?_, ?_, ?_⟩
      · intro h
        simp [deleteUser, hf] at h
      · intro e _
        simp [deleteUser, hf]
      · intro h
        simp [deleteUser, hf] at h
    | false =>
      refine ⟨?_, ?_, ?_⟩
      · intro h
        simp [deleteUser, hf] at h
      · intro e he
        simp [deleteUser, hf] at he
      · intro _
        exact ⟨u, hmem, hcid, by simp [deleteUser, hf], by simp [deleteUser, hf]⟩

/-- Concrete tables for the C10 witness. -/
def wAuthDB : AuthDB :=
  { users := [{ id := "id1", clerkId := "c1" }]
    userSubscriptions := [{ id := "s1", userId := "id1" }] }

theorem deleteUser_witness :
    (deleteUser wAuthDB "c2" false).1 = wAuthDB ∧
      ∀ u ∈ wAuthDB.users, u.clerkId ≠ "c2" :=
  (deleteUser_atomic wAuthDB "c2" false).1 (by rfl)

end LeadPipeline
